import Mathlib

/-
Verification development for the electronic door-lock controller
(src/main.cpp, src/Keypad.cpp, src/config.h).

The controller state is the set of mutable globals of main.cpp; one
driver-loop iteration of main() is modelled by `loopIter`, with elapsed
time between iterations modelled by `tick` (mbed Timers advance only
while running).  The keypad debouncer of Keypad.cpp is modelled by
`getKey` over a `KeypadState`, with the electrical row/column state
abstracted as a `press : Nat → Nat → Bool` matrix read by `scanKeys`.
-/

set_option maxHeartbeats 1000000

namespace DoorLock

-- ==================== config.h constants ====================

/-- PASSWORD "1234" from config.h, as the list of its characters. -/
def PASSWORD : List Char := ['1', '2', '3', '4']

/-- MAX_PASSWORD_LENGTH from config.h. -/
def MAX_PASSWORD_LENGTH : Nat := 8

/-- MAX_FAILED_ATTEMPTS from config.h. -/
def MAX_FAILED_ATTEMPTS : Nat := 3

/-- OPEN_TIME_MS from config.h. -/
def OPEN_TIME_MS : Nat := 10000

/-- LOCKOUT_TIME_MS from config.h. -/
def LOCKOUT_TIME_MS : Nat := 30000

/-- DEBOUNCE_TIME_MS from config.h. -/
def DEBOUNCE_TIME_MS : Nat := 50

/-- The C null character, used by the keypad code for "no key". -/
def nullKey : Char := Char.ofNat 0

-- ==================== controller state (globals of main.cpp) ====================

/-- The mutable global state of main.cpp: the input buffer, the failed-attempt
counter, the two mode flags, the two mbed Timers (modelled as an elapsed-ms
reading plus a running flag), the relay output driven by openLock/closeLock,
and the static fastFlash toggle of handleSpecialKeys. -/
structure SysState where
  inputPassword : List Char
  failedAttempts : Nat
  isDoorOpen : Bool
  isLockedOut : Bool
  doorT : Nat
  doorRunning : Bool
  lockT : Nat
  lockRunning : Bool
  lockControl : Bool
  fastFlash : Bool
deriving Repr, DecidableEq

/-- openLock() of main.cpp: set the door flag, energize the relay, reset and
start the door timer. -/
def openLock (s : SysState) : SysState :=
  { s with isDoorOpen := true, lockControl := true, doorT := 0, doorRunning := true }

/-- closeLock() of main.cpp: clear the door flag, de-energize the relay, stop
the door timer. -/
def closeLock (s : SysState) : SysState :=
  { s with isDoorOpen := false, lockControl := false, doorRunning := false }

/-- resetSystem() of main.cpp: clear the lockout flag, zero the counter, clear
the buffer, stop the lockout timer. -/
def resetSystem (s : SysState) : SysState :=
  { s with isLockedOut := false, failedAttempts := 0, inputPassword := [],
           lockRunning := false }

/-- checkPassword() of main.cpp.  When locked out it only writes the display
and returns (before the buffer clear).  On a match it zeroes the counter and
opens the lock; otherwise it increments the counter and, at
MAX_FAILED_ATTEMPTS, enters lockout and restarts the lockout timer.  In the
non-locked paths the buffer is cleared at the end. -/
def checkPassword (s : SysState) : SysState :=
  if s.isLockedOut then s
  else if s.inputPassword = PASSWORD then
    { openLock { s with failedAttempts := 0 } with inputPassword := [] }
  else
    let s1 := { s with failedAttempts := s.failedAttempts + 1 }
    let s2 :=
      if s1.failedAttempts ≥ MAX_FAILED_ATTEMPTS then
        { s1 with isLockedOut := true, lockT := 0, lockRunning := true }
      else s1
    { s2 with inputPassword := [] }

/-- handleSpecialKeys() of main.cpp.  'A' and 'D' only write the display;
'B' flips the static fastFlash flag; 'C' zeroes a positive failed-attempt
counter. -/
def handleSpecialKeys (s : SysState) (key : Char) : SysState :=
  if key = 'B' then { s with fastFlash := !s.fastFlash }
  else if key = 'C' then
    if s.failedAttempts > 0 then { s with failedAttempts := 0 } else s
  else s

/-- The key-dispatch block of the main loop (the body of
`if (key && !isDoorOpen)` in main()): '#' submits a non-empty buffer, '*'
clears a non-empty buffer, digits append while below MAX_PASSWORD_LENGTH,
letters go to handleSpecialKeys; everything else (and the rejected cases)
only writes the display. -/
def dispatchKey (s : SysState) (key : Char) : SysState :=
  if key = '#' then
    if s.inputPassword.length > 0 then checkPassword s else s
  else if key = '*' then
    if s.inputPassword.length > 0 then { s with inputPassword := [] } else s
  else if '0' ≤ key ∧ key ≤ '9' then
    if s.inputPassword.length < MAX_PASSWORD_LENGTH then
      { s with inputPassword := s.inputPassword ++ [key] }
    else s
  else if key = 'A' ∨ key = 'B' ∨ key = 'C' ∨ key = 'D' then
    handleSpecialKeys s key
  else s

/-- One iteration of the main() while-loop: lockout-expiry check, then
door-auto-close check, then the key read and dispatch (gated on a non-null
key and the door not being open). -/
def loopIter (s : SysState) (key : Char) : SysState :=
  let s1 := if s.isLockedOut ∧ s.lockT ≥ LOCKOUT_TIME_MS then resetSystem s else s
  let s2 := if s1.isDoorOpen ∧ s1.doorT ≥ OPEN_TIME_MS then closeLock s1 else s1
  if key ≠ nullKey ∧ s2.isDoorOpen = false then dispatchKey s2 key else s2

/-- Advance wall-clock time by d milliseconds: each mbed Timer advances
exactly when it is running. -/
def tick (s : SysState) (d : Nat) : SysState :=
  { s with doorT := if s.doorRunning then s.doorT + d else s.doorT,
           lockT := if s.lockRunning then s.lockT + d else s.lockT }

/-- One driver-loop step: time elapses (the 100ms sleep and any handler
sleeps since the previous iteration), then the loop body runs with the key
the keypad reported ('\0' for none). -/
def step (s : SysState) (ev : Nat × Char) : SysState :=
  loopIter (tick s ev.1) ev.2

/-- Run a sequence of driver-loop steps. -/
def run (s : SysState) (evs : List (Nat × Char)) : SysState :=
  evs.foldl step s

/-- Total wall-clock time of an event sequence. -/
def totalTime (evs : List (Nat × Char)) : Nat :=
  (evs.map Prod.fst).sum

/-- The controller state right after the initialization code of main():
buffer empty, counter zero, door closed (closeLock ran), not locked out, and
both timers started at zero. -/
def initState : SysState :=
  { inputPassword := [], failedAttempts := 0, isDoorOpen := false,
    isLockedOut := false, doorT := 0, doorRunning := true, lockT := 0,
    lockRunning := true, lockControl := false, fastFlash := false }

-- ==================== keypad (Keypad.cpp) ====================

/-- The keypad layout `keys[ROWS][COLS]` of main.cpp. -/
def keymap : List (List Char) :=
  [['1', '2', '3', 'A'],
   ['4', '5', '6', 'B'],
   ['7', '8', '9', 'C'],
   ['*', '0', '#', 'D']]

/-- `keys[r][c]` lookup. -/
def keyAt (r c : Nat) : Char := (keymap.getD r []).getD c nullKey

/-- The inner column loop of Keypad::scanKeys for one asserted row: the first
column reading low (pressed) yields the mapped symbol. -/
def scanRow (press : Nat → Nat → Bool) (r : Nat) : Option Char :=
  (List.range 4).findSome? fun c => if press r c then some (keyAt r c) else none

/-- Keypad::scanKeys: assert each row in order 0..3 and return the symbol of
the first active row/column pair; '\0' when none is active.  (Driving the
rows back high is electrical and has no modelled effect.) -/
def scanKeys (press : Nat → Nat → Bool) : Char :=
  ((List.range 4).findSome? fun r => scanRow press r).getD nullKey

/-- The private state of the Keypad class: _lastKey and the debounce Timer
reading. -/
structure KeypadState where
  lastKey : Char
  debT : Nat
deriving Repr, DecidableEq

/-- Keypad::getKey, with the scanKeys result passed in as the scanned symbol:
a non-null symbol different from _lastKey is recorded and returned; the same
symbol still pressed returns '\0' whether or not the debounce window elapsed
(both branches of the held-key case fall through to '\0'); a null scan
clears _lastKey. -/
def getKey (kp : KeypadState) (scanned : Char) : Char × KeypadState :=
  if scanned ≠ nullKey then
    if scanned ≠ kp.lastKey then
      (scanned, { lastKey := scanned, debT := 0 })
    else
      if kp.debT > DEBOUNCE_TIME_MS then (nullKey, kp) else (nullKey, kp)
  else
    (nullKey, { kp with lastKey := nullKey })

/-- Advance the keypad's debounce Timer (it is started in the constructor and
never stopped). -/
def kpTick (kp : KeypadState) (d : Nat) : KeypadState :=
  { kp with debT := kp.debT + d }

/-- Outputs of consecutive getKey calls while the physical key `k` stays
pressed, with arbitrary time elapsing before each scan. -/
def holdRun (kp : KeypadState) (k : Char) : List Nat → List Char
  | [] => []
  | d :: ds =>
    let kp1 := kpTick kp d
    let out := getKey kp1 k
    out.1 :: holdRun out.2 k ds

-- ==================== helper lemmas ====================

/-- While locked out, key dispatch never touches the mode flags or the
lockout timer: checkPassword returns early and no other branch writes them. -/
lemma dispatchKey_locked (s : SysState) (k : Char) (h : s.isLockedOut = true) :
    (dispatchKey s k).isLockedOut = true ∧
    (dispatchKey s k).isDoorOpen = s.isDoorOpen ∧
    (dispatchKey s k).lockT = s.lockT ∧
    (dispatchKey s k).lockRunning = s.lockRunning := by
  simp only [dispatchKey, checkPassword, handleSpecialKeys]
  split_ifs <;> simp_all

/-- Key dispatch with the door closed never makes the two mode flags
simultaneously true: the open-lock path runs only past the lockout guard. -/
lemma dispatchKey_excl (s : SysState) (k : Char) (h : s.isDoorOpen = false) :
    ((dispatchKey s k).isDoorOpen && (dispatchKey s k).isLockedOut) = false := by
  simp only [dispatchKey, checkPassword, handleSpecialKeys, openLock]
  split_ifs <;> simp_all

/-- Key dispatch keeps the buffer within MAX_PASSWORD_LENGTH. -/
lemma dispatchKey_len (s : SysState) (k : Char)
    (h : s.inputPassword.length ≤ MAX_PASSWORD_LENGTH) :
    (dispatchKey s k).inputPassword.length ≤ MAX_PASSWORD_LENGTH := by
  simp only [dispatchKey, checkPassword, handleSpecialKeys, openLock]
  split_ifs <;> simp_all <;> omega

/-- One driver-loop step keeps the buffer within MAX_PASSWORD_LENGTH. -/
lemma step_len (s : SysState) (ev : Nat × Char)
    (h : s.inputPassword.length ≤ MAX_PASSWORD_LENGTH) :
    (step s ev).inputPassword.length ≤ MAX_PASSWORD_LENGTH := by
  simp only [step, loopIter, tick, resetSystem, closeLock]
  split_ifs <;> first
    | exact dispatchKey_len _ _ (by simp_all)
    | simp_all

/-- One driver-loop step preserves mutual exclusion of the mode flags. -/
lemma step_excl (s : SysState) (ev : Nat × Char)
    (h : (s.isDoorOpen && s.isLockedOut) = false) :
    ((step s ev).isDoorOpen && (step s ev).isLockedOut) = false := by
  simp only [step, loopIter, tick, resetSystem, closeLock]
  split_ifs <;> first
    | exact dispatchKey_excl _ _ (by simp_all)
    | simp_all

/-- A locked-out loop iteration with the deadline not yet reached stays
locked out and leaves the lockout timer fields alone. -/
lemma loopIter_locked (s : SysState) (k : Char) (hL : s.isLockedOut = true)
    (hlt : s.lockT < LOCKOUT_TIME_MS) :
    (loopIter s k).isLockedOut = true ∧ (loopIter s k).lockRunning = s.lockRunning ∧
    (loopIter s k).lockT = s.lockT := by
  have hdc := dispatchKey_locked (closeLock s) k (by simp [closeLock, hL])
  have hds := dispatchKey_locked s k hL
  have hc1 : ¬(s.isLockedOut = true ∧ s.lockT ≥ LOCKOUT_TIME_MS) := by
    rintro ⟨_, h⟩; omega
  by_cases hc2 : s.isDoorOpen = true ∧ s.doorT ≥ OPEN_TIME_MS
  · by_cases hc3 : k ≠ nullKey ∧ (closeLock s).isDoorOpen = false
    · simp only [loopIter, if_neg hc1, if_pos hc2, if_pos hc3]
      exact ⟨hdc.1, hdc.2.2.2, hdc.2.2.1⟩
    · simp only [loopIter, if_neg hc1, if_pos hc2, if_neg hc3]
      simp [closeLock, hL]
  · by_cases hc3 : k ≠ nullKey ∧ s.isDoorOpen = false
    · simp only [loopIter, if_neg hc1, if_neg hc2, if_pos hc3]
      exact ⟨hds.1, hds.2.2.2, hds.2.2.1⟩
    · simp only [loopIter, if_neg hc1, if_neg hc2, if_neg hc3]
      simp [hL]

/-- A locked-out step with the deadline not yet reached stays locked out and
just accumulates elapsed time on the running lockout timer. -/
lemma step_locked (s : SysState) (d : Nat) (k : Char) (hL : s.isLockedOut = true)
    (hR : s.lockRunning = true) (hlt : s.lockT + d < LOCKOUT_TIME_MS) :
    (step s (d, k)).isLockedOut = true ∧ (step s (d, k)).lockRunning = true ∧
    (step s (d, k)).lockT = s.lockT + d := by
  have htT : (tick s d).lockT = s.lockT + d := by simp [tick, hR]
  have h := loopIter_locked (tick s d) k hL (by rw [htT]; exact hlt)
  simp only [step]
  exact ⟨h.1, by rw [h.2.1]; exact hR, by rw [h.2.2]; exact htT⟩

/-- Unfolding run on a cons. -/
lemma run_cons (s : SysState) (e : Nat × Char) (evs : List (Nat × Char)) :
    run s (e :: evs) = run (step s e) evs := rfl

/-- From any locked-out state with the lockout timer running, the lockout
flag can only drop after the timer reading has reached LOCKOUT_TIME_MS. -/
lemma run_locked_time : ∀ (evs : List (Nat × Char)) (s : SysState),
    s.isLockedOut = true → s.lockRunning = true →
    (run s evs).isLockedOut = false → LOCKOUT_TIME_MS ≤ s.lockT + totalTime evs := by
  intro evs
  induction evs with
  | nil => intro s hL _ hF; simp [run] at hF; rw [hL] at hF; cases hF
  | cons e evs ih =>
    intro s hL hR hF
    rw [run_cons] at hF
    have ht : totalTime (e :: evs) = e.1 + totalTime evs := by
      simp [totalTime]
    by_cases hlt : s.lockT + e.1 < LOCKOUT_TIME_MS
    · obtain ⟨h1, h2, h3⟩ := step_locked s e.1 e.2 hL hR hlt
      have := ih (step s ⟨e.1, e.2⟩) h1 h2 hF
      rw [h3] at this
      omega
    · omega

/-- Preserving the buffer bound along a whole run. -/
lemma run_len : ∀ (evs : List (Nat × Char)) (s : SysState),
    s.inputPassword.length ≤ MAX_PASSWORD_LENGTH →
    (run s evs).inputPassword.length ≤ MAX_PASSWORD_LENGTH := by
  intro evs
  induction evs with
  | nil => intro s h; exact h
  | cons e evs ih => intro s h; exact ih (step s e) (step_len s e h)

/-- Preserving mode-flag mutual exclusion along a whole run. -/
lemma run_excl : ∀ (evs : List (Nat × Char)) (s : SysState),
    (s.isDoorOpen && s.isLockedOut) = false →
    ((run s evs).isDoorOpen && (run s evs).isLockedOut) = false := by
  intro evs
  induction evs with
  | nil => intro s h; exact h
  | cons e evs ih => intro s h; exact ih (step s e) (step_excl s e h)

/-- Pressing 'C' with a positive counter zeroes exactly the counter. -/
lemma dispatchKey_C (s : SysState) (hpos : 0 < s.failedAttempts) :
    dispatchKey s 'C' = { s with failedAttempts := 0 } := by
  simp [dispatchKey, handleSpecialKeys, hpos]

/-- A held key keeps returning the null symbol from getKey: once _lastKey
equals the scanned symbol, both debounce sub-branches return null and leave
_lastKey alone. -/
lemma holdRun_held (k : Char) (hk : k ≠ nullKey) : ∀ (ds : List Nat) (kp : KeypadState),
    kp.lastKey = k → holdRun kp k ds = List.replicate ds.length nullKey := by
  intro ds
  induction ds with
  | nil => intro kp _; rfl
  | cons d ds ih =>
    intro kp hlast
    have hgk : getKey (kpTick kp d) k = (nullKey, kpTick kp d) := by
      simp [getKey, kpTick, hk, hlast]
    simp [holdRun, hgk, ih (kpTick kp d) (by simp [kpTick, hlast]), List.replicate_succ]

/-- A row with no pressed key scans to none. -/
lemma scanRow_eq_none (press : Nat → Nat → Bool) (r : Nat)
    (h0 : press r 0 = false) (h1 : press r 1 = false)
    (h2 : press r 2 = false) (h3 : press r 3 = false) :
    scanRow press r = none := by
  have hr : List.range 4 = [0, 1, 2, 3] := rfl
  simp [scanRow, hr, List.findSome?, h0, h1, h2, h3]

/-- A row scans to the symbol of its first pressed column. -/
lemma scanRow_eq_some (press : Nat → Nat → Bool) (r c : Nat) (hc : c < 4)
    (hp : press r c = true) (hmin : ∀ c', c' < c → press r c' = false) :
    scanRow press r = some (keyAt r c) := by
  have hr : List.range 4 = [0, 1, 2, 3] := rfl
  interval_cases c
  · simp [scanRow, hr, List.findSome?, hp]
  · simp [scanRow, hr, List.findSome?, hmin 0 (by omega), hp]
  · simp [scanRow, hr, List.findSome?, hmin 0 (by omega), hmin 1 (by omega), hp]
  · simp [scanRow, hr, List.findSome?, hmin 0 (by omega), hmin 1 (by omega),
      hmin 2 (by omega), hp]

-- ==================== claim theorems ====================

/-- Claim C1, counterexample: after three wrong submissions the controller is
locked out with an empty input buffer, yet pressing the digit key '1' while
locked out appends it to the buffer — so a key press during lockout is not
ignored and the input buffer does change, contrary to the claim. -/
theorem C1_counterexample :
    (run initState [(0, '9'), (0, '#'), (0, '9'), (0, '#'), (0, '9'), (0, '#')]).isLockedOut
      = true ∧
    (run initState [(0, '9'), (0, '#'), (0, '9'), (0, '#'), (0, '9'), (0, '#')]).inputPassword
      = [] ∧
    (run initState
        [(0, '9'), (0, '#'), (0, '9'), (0, '#'), (0, '9'), (0, '#'), (0, '1')]).inputPassword
      = ['1'] := by
  decide

/-- Claim C1, amended: while the controller is locked out, no key press
changes the door-open or locked-out flags, and a '#' press leaves the whole
controller state unchanged (checkPassword returns after the status display);
digit keys, '*' and 'C' are however still dispatched and can change the
input buffer or the failed-attempt counter. -/
theorem C1_locked_keys (s : SysState) (k : Char) (hL : s.isLockedOut = true) :
    (dispatchKey s k).isLockedOut = true ∧
    (dispatchKey s k).isDoorOpen = s.isDoorOpen ∧
    (k = '#' → dispatchKey s k = s) := by
  refine ⟨(dispatchKey_locked s k hL).1, (dispatchKey_locked s k hL).2.1, ?_⟩
  intro hk
  subst hk
  simp only [dispatchKey]
  split_ifs <;> simp_all [checkPassword, hL]

/-- Witness for C1_locked_keys at a concrete locked-out state and key. -/
theorem C1_locked_keys_witness :
    (dispatchKey { initState with isLockedOut := true } '5').isLockedOut = true ∧
    (dispatchKey { initState with isLockedOut := true } '5').isDoorOpen
      = ({ initState with isLockedOut := true } : SysState).isDoorOpen ∧
    ('5' = '#' → dispatchKey { initState with isLockedOut := true } '5'
      = { initState with isLockedOut := true }) :=
  C1_locked_keys { initState with isLockedOut := true } '5' rfl

/-- Claim C2: in a state that is not locked out, with the failed-attempt
counter below MAX_FAILED_ATTEMPTS and the buffer equal to the credential,
pressing '#' opens the door (flag set, relay energized) and resets the
counter to zero. -/
theorem C2_correct_submit (s : SysState) (hL : s.isLockedOut = false)
    (hA : s.failedAttempts < MAX_FAILED_ATTEMPTS) (hP : s.inputPassword = PASSWORD) :
    (dispatchKey s '#').isDoorOpen = true ∧
    (dispatchKey s '#').lockControl = true ∧
    (dispatchKey s '#').failedAttempts = 0 := by
  simp [dispatchKey, checkPassword, openLock, hP, hL, PASSWORD]

/-- Witness for C2_correct_submit with the credential typed in and a
positive prior counter. -/
theorem C2_correct_submit_witness :
    (dispatchKey { initState with inputPassword := PASSWORD, failedAttempts := 2 } '#').isDoorOpen
      = true ∧
    (dispatchKey { initState with inputPassword := PASSWORD, failedAttempts := 2 } '#').lockControl
      = true ∧
    (dispatchKey { initState with inputPassword := PASSWORD, failedAttempts := 2 } '#').failedAttempts
      = 0 :=
  C2_correct_submit { initState with inputPassword := PASSWORD, failedAttempts := 2 }
    rfl (by decide) rfl

/-- Claim C3: three consecutive wrong submissions from boot leave the
controller locked out with the lockout timer restarted at zero; and from any
locked-out state with the lockout timer running, if the locked-out flag is
false after a sequence of driver-loop steps then at least LOCKOUT_TIME_MS of
time (counting the timer's head start) has elapsed — no key press can end
the lockout earlier. -/
theorem C3_lockout_persistence :
    ((run initState [(0, '9'), (0, '#'), (0, '9'), (0, '#'), (0, '9'), (0, '#')]).isLockedOut
        = true ∧
     (run initState [(0, '9'), (0, '#'), (0, '9'), (0, '#'), (0, '9'), (0, '#')]).lockT = 0 ∧
     (run initState [(0, '9'), (0, '#'), (0, '9'), (0, '#'), (0, '9'), (0, '#')]).lockRunning
        = true) ∧
    (∀ (s : SysState) (evs : List (Nat × Char)), s.isLockedOut = true →
      s.lockRunning = true → (run s evs).isLockedOut = false →
      LOCKOUT_TIME_MS ≤ s.lockT + totalTime evs) :=
  ⟨by decide, fun s evs hL hR hF => run_locked_time evs s hL hR hF⟩

/-- Witness for C3_lockout_persistence: a locked-out state that unlocks after
a 30000 ms quiet step indeed satisfies the elapsed-time bound. -/
theorem C3_lockout_persistence_witness :
    LOCKOUT_TIME_MS ≤ ({ initState with isLockedOut := true } : SysState).lockT
      + totalTime [(30000, nullKey)] :=
  C3_lockout_persistence.2 { initState with isLockedOut := true } [(30000, nullKey)]
    rfl rfl (by decide)

/-- Claim C4: along any key sequence from boot that contains no '#', the
input buffer stays within MAX_PASSWORD_LENGTH; and a digit key arriving with
the buffer already at maximum length leaves the controller state exactly
unchanged. -/
theorem C4_buffer_saturation :
    (∀ evs : List (Nat × Char), (∀ e ∈ evs, e.2 ≠ '#') →
      (run initState evs).inputPassword.length ≤ MAX_PASSWORD_LENGTH) ∧
    (∀ (s : SysState) (k : Char), '0' ≤ k → k ≤ '9' →
      s.inputPassword.length = MAX_PASSWORD_LENGTH → dispatchKey s k = s) := by
  constructor
  · intro evs _
    exact run_len evs initState (by decide)
  · intro s k h0 h9 hlen
    have hk1 : k ≠ '#' := by intro h; subst h; exact absurd h0 (by decide)
    have hk2 : k ≠ '*' := by intro h; subst h; exact absurd h0 (by decide)
    simp [dispatchKey, hk1, hk2, h0, h9, hlen]

/-- Witness for C4_buffer_saturation: a '#'-free run and a digit arriving on
a full 8-character buffer. -/
theorem C4_buffer_saturation_witness :
    (run initState [(0, '1'), (0, '2')]).inputPassword.length ≤ MAX_PASSWORD_LENGTH ∧
    dispatchKey
        { initState with inputPassword := ['1', '2', '3', '4', '5', '6', '7', '8'] } '9'
      = { initState with inputPassword := ['1', '2', '3', '4', '5', '6', '7', '8'] } :=
  ⟨C4_buffer_saturation.1 [(0, '1'), (0, '2')] (by decide),
   C4_buffer_saturation.2
     { initState with inputPassword := ['1', '2', '3', '4', '5', '6', '7', '8'] } '9'
     (by decide) (by decide) rfl⟩

/-- Claim C5: getKey is edge-triggered — starting from a keypad state whose
last-reported symbol differs from the pressed key, a run of consecutive scans
of that key (with arbitrary time between scans) reports the key on the first
scan and the null symbol on every later scan, however long the hold; and a
null scan returns null and clears the last-reported symbol, re-arming
detection. -/
theorem C5_edge_triggered :
    (∀ (kp : KeypadState) (k : Char) (d : Nat) (ds : List Nat),
      k ≠ nullKey → kp.lastKey ≠ k →
      holdRun kp k (d :: ds) = k :: List.replicate ds.length nullKey) ∧
    (∀ kp : KeypadState,
      (getKey kp nullKey).1 = nullKey ∧ ((getKey kp nullKey).2).lastKey = nullKey) := by
  constructor
  · intro kp k d ds hk hne
    have h1 : getKey (kpTick kp d) k = (k, ⟨k, 0⟩) := by
      simp [getKey, kpTick, hk, Ne.symm hne]
    simp [holdRun, h1, holdRun_held k hk ds ⟨k, 0⟩ rfl]
  · intro kp
    constructor <;> simp [getKey]

/-- Witness for C5_edge_triggered: the key '5' held for three scans reports
once then null twice, and a null scan clears the remembered key. -/
theorem C5_edge_triggered_witness :
    holdRun ⟨nullKey, 0⟩ '5' (0 :: [100, 100]) = '5' :: List.replicate 2 nullKey ∧
    ((getKey ⟨'5', 7⟩ nullKey).1 = nullKey ∧ ((getKey ⟨'5', 7⟩ nullKey).2).lastKey = nullKey) :=
  ⟨C5_edge_triggered.1 ⟨nullKey, 0⟩ '5' 0 [100, 100] (by decide) (by decide),
   C5_edge_triggered.2 ⟨'5', 7⟩⟩

/-- Claim C6: scanKeys returns the keymap entry of the row-major,
column-ascending first active row/column pair, and the null symbol when no
pair is active. -/
theorem C6_scan_row_major :
    (∀ (press : Nat → Nat → Bool) (r c : Nat), r < 4 → c < 4 → press r c = true →
      (∀ r' c', r' < 4 → c' < 4 → press r' c' = true → r < r' ∨ (r = r' ∧ c ≤ c')) →
      scanKeys press = keyAt r c) ∧
    (∀ press : Nat → Nat → Bool, (∀ r c, r < 4 → c < 4 → press r c = false) →
      scanKeys press = nullKey) := by
  have hr4 : List.range 4 = [0, 1, 2, 3] := rfl
  constructor
  · intro press r c hr hc hp hmin
    have hrows : ∀ r', r' < r → ∀ c', c' < 4 → press r' c' = false := by
      intro r' hr' c' hc'
      by_contra hb
      have h := hmin r' c' (by omega) hc' (by simpa using hb)
      omega
    have hcols : ∀ c', c' < c → press r c' = false := by
      intro c' hc'
      by_contra hb
      rcases hmin r c' hr (by omega) (by simpa using hb) with h | ⟨h1, h2⟩ <;> omega
    have hrow : scanRow press r = some (keyAt r c) := scanRow_eq_some press r c hc hp hcols
    interval_cases r
    · simp [scanKeys, hr4, List.findSome?, hrow]
    · have hn0 : scanRow press 0 = none :=
        scanRow_eq_none press 0 (hrows 0 (by omega) 0 (by omega))
          (hrows 0 (by omega) 1 (by omega)) (hrows 0 (by omega) 2 (by omega))
          (hrows 0 (by omega) 3 (by omega))
      simp [scanKeys, hr4, List.findSome?, hn0, hrow]
    · have hn0 : scanRow press 0 = none :=
        scanRow_eq_none press 0 (hrows 0 (by omega) 0 (by omega))
          (hrows 0 (by omega) 1 (by omega)) (hrows 0 (by omega) 2 (by omega))
          (hrows 0 (by omega) 3 (by omega))
      have hn1 : scanRow press 1 = none :=
        scanRow_eq_none press 1 (hrows 1 (by omega) 0 (by omega))
          (hrows 1 (by omega) 1 (by omega)) (hrows 1 (by omega) 2 (by omega))
          (hrows 1 (by omega) 3 (by omega))
      simp [scanKeys, hr4, List.findSome?, hn0, hn1, hrow]
    · have hn0 : scanRow press 0 = none :=
        scanRow_eq_none press 0 (hrows 0 (by omega) 0 (by omega))
          (hrows 0 (by omega) 1 (by omega)) (hrows 0 (by omega) 2 (by omega))
          (hrows 0 (by omega) 3 (by omega))
      have hn1 : scanRow press 1 = none :=
        scanRow_eq_none press 1 (hrows 1 (by omega) 0 (by omega))
          (hrows 1 (by omega) 1 (by omega)) (hrows 1 (by omega) 2 (by omega))
          (hrows 1 (by omega) 3 (by omega))
      have hn2 : scanRow press 2 = none :=
        scanRow_eq_none press 2 (hrows 2 (by omega) 0 (by omega))
          (hrows 2 (by omega) 1 (by omega)) (hrows 2 (by omega) 2 (by omega))
          (hrows 2 (by omega) 3 (by omega))
      simp [scanKeys, hr4, List.findSome?, hn0, hn1, hn2, hrow]
  · intro press h
    have hn0 : scanRow press 0 = none :=
      scanRow_eq_none press 0 (h 0 0 (by omega) (by omega)) (h 0 1 (by omega) (by omega))
        (h 0 2 (by omega) (by omega)) (h 0 3 (by omega) (by omega))
    have hn1 : scanRow press 1 = none :=
      scanRow_eq_none press 1 (h 1 0 (by omega) (by omega)) (h 1 1 (by omega) (by omega))
        (h 1 2 (by omega) (by omega)) (h 1 3 (by omega) (by omega))
    have hn2 : scanRow press 2 = none :=
      scanRow_eq_none press 2 (h 2 0 (by omega) (by omega)) (h 2 1 (by omega) (by omega))
        (h 2 2 (by omega) (by omega)) (h 2 3 (by omega) (by omega))
    have hn3 : scanRow press 3 = none :=
      scanRow_eq_none press 3 (h 3 0 (by omega) (by omega)) (h 3 1 (by omega) (by omega))
        (h 3 2 (by omega) (by omega)) (h 3 3 (by omega) (by omega))
    simp [scanKeys, hr4, List.findSome?, hn0, hn1, hn2, hn3]

/-- Witness for C6_scan_row_major: the single active pair (1, 2) scans to
keymap entry '6', and the all-inactive matrix scans to the null symbol. -/
theorem C6_scan_row_major_witness :
    scanKeys (fun r c => r == 1 && c == 2) = keyAt 1 2 ∧
    scanKeys (fun _ _ => false) = nullKey :=
  ⟨C6_scan_row_major.1 (fun r c => r == 1 && c == 2) 1 2 (by omega) (by omega) (by decide)
      (by intro r' c' _ _ hp; simp at hp; omega),
   C6_scan_row_major.2 (fun _ _ => false) (fun _ _ _ _ => rfl)⟩

/-- Claim C7, counterexample: after opening the door with the correct
credential, letting exactly OPEN_TIME_MS elapse and delivering the key '1'
in the same iteration closes the door first — but the key is then processed,
not ignored: the buffer ends as "1". -/
theorem C7_counterexample :
    (run initState [(0, '1'), (0, '2'), (0, '3'), (0, '4'), (0, '#')]).isDoorOpen = true ∧
    (run initState
        [(0, '1'), (0, '2'), (0, '3'), (0, '4'), (0, '#'), (10000, '1')]).isDoorOpen
      = false ∧
    (run initState
        [(0, '1'), (0, '2'), (0, '3'), (0, '4'), (0, '#'), (10000, '1')]).inputPassword
      = ['1'] := by
  decide

/-- Claim C7, amended: the timer-expiry checks run before the key dispatch,
so when the door-open deadline has passed in the same iteration that a key
arrives, the door is closed first and the key is then dispatched against the
now-closed state — processed normally rather than ignored. -/
theorem C7_close_then_dispatch (s : SysState) (d : Nat) (k : Char)
    (hL : s.isLockedOut = false) (hD : s.isDoorOpen = true)
    (hT : (tick s d).doorT ≥ OPEN_TIME_MS) (hk : k ≠ nullKey) :
    step s (d, k) = dispatchKey (closeLock (tick s d)) k := by
  have hc1 : ¬((tick s d).isLockedOut = true ∧ (tick s d).lockT ≥ LOCKOUT_TIME_MS) := by
    rintro ⟨hlo, _⟩
    rw [show (tick s d).isLockedOut = s.isLockedOut from rfl, hL] at hlo
    cases hlo
  have hc2 : (tick s d).isDoorOpen = true ∧ (tick s d).doorT ≥ OPEN_TIME_MS := ⟨hD, hT⟩
  have hc3 : k ≠ nullKey ∧ (closeLock (tick s d)).isDoorOpen = false := ⟨hk, rfl⟩
  simp only [step, loopIter, if_neg hc1, if_pos hc2, if_pos hc3]

/-- Witness for C7_close_then_dispatch at the door-open state reached with
the correct credential, the deadline just reached, and the key '1'. -/
theorem C7_close_then_dispatch_witness :
    step (run initState [(0, '1'), (0, '2'), (0, '3'), (0, '4'), (0, '#')]) (10000, '1')
      = dispatchKey
          (closeLock
            (tick (run initState [(0, '1'), (0, '2'), (0, '3'), (0, '4'), (0, '#')]) 10000))
          '1' :=
  C7_close_then_dispatch (run initState [(0, '1'), (0, '2'), (0, '3'), (0, '4'), (0, '#')])
    10000 '1' (by decide) (by decide) (by decide) (by decide)

/-- Claim C8: with the door closed and no lockout, the three rejected inputs
— '*' on an empty buffer, '#' on an empty buffer, a digit on a full buffer —
leave the controller state exactly unchanged (display only). -/
theorem C8_rejected_noop (s : SysState) (k : Char) (hD : s.isDoorOpen = false)
    (hL : s.isLockedOut = false)
    (h : (k = '*' ∧ s.inputPassword = []) ∨ (k = '#' ∧ s.inputPassword = []) ∨
         ('0' ≤ k ∧ k ≤ '9' ∧ s.inputPassword.length = MAX_PASSWORD_LENGTH)) :
    dispatchKey s k = s := by
  rcases h with ⟨hk, hb⟩ | ⟨hk, hb⟩ | ⟨h0, h9, hlen⟩
  · subst hk; simp [dispatchKey, hb]
  · subst hk; simp [dispatchKey, hb]
  · have hk1 : k ≠ '#' := by intro h; subst h; exact absurd h0 (by decide)
    have hk2 : k ≠ '*' := by intro h; subst h; exact absurd h0 (by decide)
    simp [dispatchKey, hk1, hk2, h0, h9, hlen]

/-- Witness for C8_rejected_noop: '*' pressed at boot with an empty buffer
is a no-op. -/
theorem C8_rejected_noop_witness : dispatchKey initState '*' = initState :=
  C8_rejected_noop initState '*' rfl rfl (Or.inl ⟨rfl, rfl⟩)

/-- Claim C9: in every state reachable from boot by driver-loop steps, the
door-open and locked-out flags are never both true. -/
theorem C9_door_lockout_exclusive (evs : List (Nat × Char)) :
    ((run initState evs).isDoorOpen && (run initState evs).isLockedOut) = false :=
  run_excl evs initState rfl

/-- Claim C10: pressing 'C' with a positive failed-attempt counter zeroes the
counter in any state where keys are dispatched, without touching the
locked-out flag; in particular, a locked-out driver step before the lockout
deadline ends with the counter cleared and the lockout flag still set. -/
theorem C10_admin_clear :
    (∀ s : SysState, s.isDoorOpen = false → 0 < s.failedAttempts →
      (dispatchKey s 'C').failedAttempts = 0 ∧
      (dispatchKey s 'C').isLockedOut = s.isLockedOut) ∧
    (∀ (s : SysState) (d : Nat), s.isLockedOut = true → s.lockRunning = true →
      s.isDoorOpen = false → 0 < s.failedAttempts → s.lockT + d < LOCKOUT_TIME_MS →
      (step s (d, 'C')).failedAttempts = 0 ∧ (step s (d, 'C')).isLockedOut = true) := by
  constructor
  · intro s _ hpos
    rw [dispatchKey_C s hpos]
    exact ⟨rfl, rfl⟩
  · intro s d hL hR hD hpos hlt
    have htT : (tick s d).lockT = s.lockT + d := by simp [tick, hR]
    have hc1 : ¬((tick s d).isLockedOut = true ∧ (tick s d).lockT ≥ LOCKOUT_TIME_MS) := by
      rintro ⟨_, hge⟩; rw [htT] at hge; omega
    have hc2 : ¬((tick s d).isDoorOpen = true ∧ (tick s d).doorT ≥ OPEN_TIME_MS) := by
      rintro ⟨hdo, _⟩
      rw [show (tick s d).isDoorOpen = s.isDoorOpen from rfl, hD] at hdo
      cases hdo
    have hc3 : ('C' : Char) ≠ nullKey ∧ (tick s d).isDoorOpen = false := ⟨by decide, hD⟩
    simp only [step, loopIter, if_neg hc1, if_neg hc2, if_pos hc3]
    rw [dispatchKey_C (tick s d) hpos]
    exact ⟨rfl, hL⟩

/-- Witness for C10_admin_clear: 'C' clears a counter of 2 at boot, and a
locked-out state with counter 3 stays locked with the counter cleared. -/
theorem C10_admin_clear_witness :
    ((dispatchKey { initState with failedAttempts := 2 } 'C').failedAttempts = 0 ∧
     (dispatchKey { initState with failedAttempts := 2 } 'C').isLockedOut
       = ({ initState with failedAttempts := 2 } : SysState).isLockedOut) ∧
    ((step { initState with isLockedOut := true, failedAttempts := 3 }
        (5, 'C')).failedAttempts = 0 ∧
     (step { initState with isLockedOut := true, failedAttempts := 3 }
        (5, 'C')).isLockedOut = true) :=
  ⟨C10_admin_clear.1 { initState with failedAttempts := 2 } rfl (by decide),
   C10_admin_clear.2 { initState with isLockedOut := true, failedAttempts := 3 } 5
     rfl rfl rfl (by decide) (by decide)⟩

end DoorLock
